import Mathlib

/-!
Verification of the conversation-state and request/response orchestration
loop of `src/streamlit/cortex_analyst_demo.py`.

The embedding models the Python values the script manipulates (`PyVal`),
the fallible library calls of one round trip (`CallOutcome`: what
`session.sql(...).collect()` and `json.loads` did), the function
`get_analyst_response` (lines 101-151), the exception behaviour of
`display_response` (lines 153-209), the main input-handling block
(lines 232-277) and the clear-history button (lines 279-283).

UI rendering calls (`st.write`, `st.code`, `st.button`, spinners, ...)
are modelled as total no-ops that return `False` for a freshly rendered
button, but the plain Python evaluated in their argument lists — in
particular `hash(suggestion)` in the button-key f-string of line 208 —
is modelled, exceptions included; a button click arrives as the `click`
field of the next rerun's `Event`, exactly as Streamlit delivers it.
Streamlit widget-key collisions are outside the model.
-/

namespace CortexDemo

/-- Model of the Python values flowing through the script: strings, ints,
bools, `None`, lists and (string-keyed) dicts.  JSON decoding produces
exactly these shapes; dict keys are unique in decoded JSON, so an
association list represents a dict. -/
inductive PyVal where
  | str (s : String)
  | num (n : Int)
  | bool (b : Bool)
  | pynone
  | list (xs : List PyVal)
  | dict (kvs : List (String × PyVal))

/-- Python truthiness of a value: empty string, zero, `False`, `None`,
empty list and empty dict are falsy. -/
def truthy : PyVal → Bool
  | .str s => s != ""
  | .num n => n != 0
  | .bool b => b
  | .pynone => false
  | .list xs => !xs.isEmpty
  | .dict kvs => !kvs.isEmpty

/-- Python type name, as it appears in `TypeError` messages. -/
def pyTypeName : PyVal → String
  | .str _ => "str"
  | .num _ => "int"
  | .bool _ => "bool"
  | .pynone => "NoneType"
  | .list _ => "list"
  | .dict _ => "dict"

/-- Python equality of a string against an arbitrary value (`==` between a
str and a non-str is `False`). -/
def pyStrEq (key : String) : PyVal → Bool
  | .str s => key == s
  | _ => false

/-- Substring test on strings, used for Python's `key in someString`. -/
def strMem (needle hay : String) : Bool :=
  (List.range (hay.data.length + 1)).any fun i => needle.data.isPrefixOf (hay.data.drop i)

/-- Python's `key in v` for a string key: substring test on strings,
membership on lists, key lookup on dicts, and a `TypeError` on
non-iterable values. -/
def memCheck (key : String) : PyVal → Except String Bool
  | .str s => .ok (strMem key s)
  | .list xs => .ok (xs.any (pyStrEq key))
  | .dict kvs => .ok (kvs.any (fun kv => kv.1 == key))
  | v => .error ("argument of type '" ++ pyTypeName v ++ "' is not iterable")

/-- Python's `v[key]` for a string key: dict lookup, `TypeError` on
strings and lists (string index expected to be an int), `TypeError` on
the rest. -/
def getItem : PyVal → String → Except String PyVal
  | .dict kvs, key =>
    match kvs.find? (fun kv => kv.1 == key) with
    | some kv => .ok kv.2
    | none => .error ("'" ++ key ++ "'")
  | .str _, _ => .error "string indices must be integers"
  | .list _, _ => .error "list indices must be integers or slices, not str"
  | v, _ => .error ("'" ++ pyTypeName v ++ "' object is not subscriptable")

/-- Values Python can iterate over with `for` (among the `PyVal` shapes). -/
def pyIterable : PyVal → Bool
  | .str _ => true
  | .list _ => true
  | .dict _ => true
  | _ => false

/-- Values Python's `hash()` accepts: strings, ints, bools and `None`
are hashable; lists and dicts raise
`TypeError: unhashable type: '...'`. -/
def pyHashable : PyVal → Bool
  | .str _ => true
  | .num _ => true
  | .bool _ => true
  | .pynone => true
  | .list _ => false
  | .dict _ => false

/-- Exception raised inside the suggestions `for` loop (source lines
207-208): for each element the button's key f-string evaluates
`hash(suggestion)` before `st.button` is called, and `hash()` raises a
`TypeError` on the first unhashable element.  Iterating a str yields
one-character strs and iterating a dict yields its string keys, both
hashable, so only a list can carry an unhashable element. -/
def suggestionLoopExc (w : PyVal) : Option String :=
  match w with
  | .list xs =>
    xs.findSome? (fun x =>
      if pyHashable x then none
      else some ("unhashable type: '" ++ pyTypeName x ++ "'"))
  | _ => none

/-- Exception behaviour of `display_response(response)` (source lines
153-209): `some msg` when the function raises (with `str(e) = msg`),
`none` when it returns normally.  The function touches the response only
through `"message" in response` / `response["message"]`,
`"sql" in response and response["sql"]`,
`"suggestions" in response and response["suggestions"]` and the `for`
loop over the suggestions, whose body evaluates `hash(suggestion)` in
the button's key f-string (line 208) and so raises on unhashable
elements; the `st.*` rendering calls themselves are total and a
freshly rendered button returns `False`, so those raise nothing. -/
def displayExc (response : PyVal) : Option String :=
  match memCheck "message" response with
  | .error e => some e
  | .ok hasMsg =>
    match (if hasMsg then
             match getItem response "message" with
             | .error e => some e
             | .ok _ => none
           else none) with
    | some e => some e
    | none =>
      match memCheck "sql" response with
      | .error e => some e
      | .ok hasSql =>
        match (if hasSql then
                 match getItem response "sql" with
                 | .error e => some e
                 | .ok _ => none
               else none) with
        | some e => some e
        | none =>
          match memCheck "suggestions" response with
          | .error e => some e
          | .ok hasSug =>
            if hasSug then
              match getItem response "suggestions" with
              | .error e => some e
              | .ok w =>
                if truthy w then
                  if pyIterable w then suggestionLoopExc w
                  else some ("'" ++ pyTypeName w ++ "' object is not iterable")
                else none
            else none

/-- Source line 28: `API_ENDPOINT = "/api/v2/cortex/analyst/message"`
(referenced nowhere else in the script). -/
def API_ENDPOINT : String := "/api/v2/cortex/analyst/message"

/-- Source line 29: `API_TIMEOUT = 30000  # 30 seconds` (referenced
nowhere else in the script). -/
def API_TIMEOUT : Nat := 30000

/-- The text of the f-string `error_msg` (source lines 137-150) before
the interpolated `str(e)`. -/
def errHead : String :=
  "\n        🚨 An error occurred while calling Cortex Analyst 🚨\n        \n        **Error Details:**\n        ```\n        "

/-- The text of the f-string `error_msg` (source lines 137-150) after
the interpolated `str(e)`. -/
def errTail : String :=
  "\n        ```\n        \n        **Troubleshooting Tips:**\n        - Verify your semantic model path is correct\n        - Ensure you have CORTEX_USER permissions\n        - Check that the semantic model file exists in the specified stage\n        - Verify your Snowflake account has Cortex features enabled\n        "

/-- The f-string `sql_query` (source lines 119-124): the serialized
messages and the semantic-model path interpolated into a fixed SQL
template. -/
def buildSqlQuery (messagesJson path : String) : String :=
  "\n        SELECT SNOWFLAKE.CORTEX.ANALYST(\n            '" ++ messagesJson ++
    "',\n            '" ++ path ++ "'\n        ) as response\n        "

/-- What the fallible library calls of one invocation of
`get_analyst_response` did, seen from the script:
`raiseDuring msg` — `session.sql(sql_query).collect()`, the row access
`result[0]['RESPONSE']` or `json.loads(response_str)` raised an
exception with `str(e) = msg`;
`noRows` — `collect()` returned an empty list (so `result and
len(result) > 0` is false);
`decoded v` — `collect()` returned at least one row and
`json.loads` decoded the row's `RESPONSE` string to the value `v`
(any JSON shape: the script checks nothing about it). -/
inductive CallOutcome where
  | raiseDuring (msg : String)
  | noRows
  | decoded (v : PyVal)

/-- Result of one invocation of `get_analyst_response`: the returned
pair, plus two observations of the embedding — the number of
`session.sql(...).collect()` invocations performed and the SQL text
sent.  Every path of the source performs the single `collect()` call
(the only statements before it build `request_body` and the f-string,
which cannot raise on the modelled values), so `networkCalls` is `1` in
every branch. -/
structure CallResult where
  response : PyVal
  error : Option String
  networkCalls : Nat
  sqlText : String

/-- `get_analyst_response(messages)` (source lines 101-151), with the
serialized messages and the session's semantic-model path as explicit
strings.  The `try` block spans the whole body: any exception becomes
the `error_msg` template around `str(e)` and the empty dict, an empty
row list becomes the fixed no-response message, and a decoded row is
returned with `None` for the error.  Nothing validates the path or the
decoded value, and no exception escapes. -/
def getAnalystResponse (messagesJson path : String) (outcome : CallOutcome) : CallResult :=
  let sql := buildSqlQuery messagesJson path
  match outcome with
  | .raiseDuring msg => ⟨.dict [], some (errHead ++ msg ++ errTail), 1, sql⟩
  | .noRows => ⟨.dict [], some "No response received from Cortex Analyst", 1, sql⟩
  | .decoded v => ⟨v, none, 1, sql⟩

/-- `get_analyst_response` with the wall-clock duration of the
`collect()` call as an explicit parameter.  The source consults no
clock and passes no timeout to `session.sql(...).collect()` (the
`API_TIMEOUT` constant of line 29 appears nowhere else), so the
duration cannot influence the result: the embedding ignores it. -/
def getAnalystResponseTimed (messagesJson path : String) (_elapsedMs : Nat)
    (outcome : CallOutcome) : CallResult :=
  getAnalystResponse messagesJson path outcome

/-- One entry of `st.session_state.messages`: a dict
`{"role": ..., "content": ...}` whose content is whatever the script
stored (a str for user turns and error turns, the decoded value for
successful assistant turns). -/
structure Turn where
  role : String
  content : PyVal

/-- The session state the input-handling block reads and writes:
`st.session_state.messages` and `st.session_state.user_input`
(the queued pending input; `""` is its cleared state, falsy like
Python's). -/
structure LoopState where
  messages : List Turn
  userInput : String

/-- A turn as `json.dumps` sees it inside the messages list. -/
def turnToPy (t : Turn) : PyVal :=
  .dict [("role", .str t.role), ("content", t.content)]

/-- Escape of one character inside a JSON string literal.  `json.dumps`
additionally escapes control characters and (by default) non-ASCII
characters; no theorem below inspects serialized text, so only the
quote and backslash escapes are modelled. -/
def escapeJsonChar (c : Char) : String :=
  if c = '"' then "\\\"" else if c = '\\' then "\\\\" else String.singleton c

/-- Escape of a JSON string literal's text. -/
def escapeJson (s : String) : String :=
  String.join (s.data.map escapeJsonChar)

mutual

/-- `json.dumps` on a modelled Python value (default separators). -/
def dumpsVal : PyVal → String
  | .str s => "\"" ++ escapeJson s ++ "\""
  | .num n => toString n
  | .bool b => if b then "true" else "false"
  | .pynone => "null"
  | .list xs => "[" ++ dumpsList xs ++ "]"
  | .dict kvs => "\x7b" ++ dumpsKvs kvs ++ "\x7d"

/-- `json.dumps` of a list's elements, comma-separated. -/
def dumpsList : List PyVal → String
  | [] => ""
  | [x] => dumpsVal x
  | x :: y :: xs => dumpsVal x ++ ", " ++ dumpsList (y :: xs)

/-- `json.dumps` of a dict's entries, comma-separated. -/
def dumpsKvs : List (String × PyVal) → String
  | [] => ""
  | [kv] => "\"" ++ escapeJson kv.1 ++ "\": " ++ dumpsVal kv.2
  | kv :: kw :: xs =>
    "\"" ++ escapeJson kv.1 ++ "\": " ++ dumpsVal kv.2 ++ ", " ++ dumpsKvs (kw :: xs)

end

/-- `json.dumps(messages)` as used in the `sql_query` f-string. -/
def dumpsMessages (msgs : List Turn) : String :=
  dumpsVal (.list (msgs.map turnToPy))

/-- The input-handling block (source lines 232-277), one script rerun,
given the chat-input submission `typed` (`""` models `None`: both are
falsy and the block reads the value only when truthy) and the behaviour
`outcome` of the remote call, should one be made.  Faithful order of
the source: guard `user_input or st.session_state.user_input`, pick
`current_input` (typed input wins), clear the pending slot, append the
user turn, call `get_analyst_response` on the updated messages, then
either append the error turn (`"Error: " + error`), or display the
response and append it — where an exception raised by
`display_response` is caught by the outer handler (lines 271-277) and
an `"Unexpected error: " + str(e)` turn is appended instead. -/
def handleInput (cfg typed : String) (outcome : CallOutcome) (st : LoopState) : LoopState :=
  if typed != "" || st.userInput != "" then
    let current := if typed != "" then typed else st.userInput
    let msgs1 := st.messages ++ [⟨"user", .str current⟩]
    let r := getAnalystResponse (dumpsMessages msgs1) cfg outcome
    match r.error with
    | some e => ⟨msgs1 ++ [⟨"assistant", .str ("Error: " ++ e)⟩], ""⟩
    | none =>
      match displayExc r.response with
      | some e => ⟨msgs1 ++ [⟨"assistant", .str ("Unexpected error: " ++ e)⟩], ""⟩
      | none => ⟨msgs1 ++ [⟨"assistant", r.response⟩], ""⟩
  else st

/-- One rerun's external stimuli: `click` — a sample-question button
(lines 71-73) or a suggestion button (lines 204-209) clicked this rerun
(it assigns `st.session_state.user_input` before the input block runs);
`typed` — the chat-input submission (`""` for `None`); `outcome` — the
behaviour of the remote call, should one be made. -/
structure Event where
  click : Option String
  typed : String
  outcome : CallOutcome

/-- Effect of the clicked button's assignment
`st.session_state.user_input = ...` on the session state. -/
def applyClick : Option String → LoopState → LoopState
  | some s, st => ⟨st.messages, s⟩
  | none, st => st

/-- One full rerun: the button assignment, then the input-handling
block. -/
def processEvent (cfg : String) (e : Event) (st : LoopState) : LoopState :=
  handleInput cfg e.typed e.outcome (applyClick e.click st)

/-- Whether the rerun's input guard (line 233) accepts: some input is
non-empty after the button assignment. -/
def acceptedEv (e : Event) (st : LoopState) : Bool :=
  e.typed != "" || (applyClick e.click st).userInput != ""

/-- A sequence of reruns. -/
def runLoop (cfg : String) (evs : List Event) (st : LoopState) : LoopState :=
  evs.foldl (fun s e => processEvent cfg e s) st

/-- How many of the reruns' inputs the guard accepts, threading the
evolving state (acceptance of a later rerun can depend on the pending
slot an earlier one left). -/
def countAccepted (cfg : String) (evs : List Event) (st : LoopState) : Nat :=
  match evs with
  | [] => 0
  | e :: rest =>
    (if acceptedEv e st then 1 else 0) + countAccepted cfg rest (processEvent cfg e st)

/-- The clear-history button (source lines 279-283): rendered only when
the transcript is non-empty, and when clicked it assigns `[]` to
`st.session_state.messages` (the pending slot is untouched). -/
def clearHistoryStep (clicked : Bool) (st : LoopState) : LoopState :=
  if !st.messages.isEmpty && clicked then ⟨[], st.userInput⟩ else st

/-- Whether the round reaches the success append (lines 262-269):
the call decoded a value and displaying it raised nothing. -/
def roundSuccess (o : CallOutcome) : Bool :=
  match o with
  | .decoded v => (displayExc v).isNone
  | _ => false

/-- Spec-side predicate (§3, §8 of the spec): all three optional fields
of a decoded reply — `message`, `sql` (the generated query) and
`suggestions` — are absent or empty.  Stated over a decoded JSON
object. -/
def allFieldsEmpty (v : PyVal) : Bool :=
  match v with
  | .dict kvs =>
    (match kvs.find? (fun kv => kv.1 == "message") with
     | some kv => !truthy kv.2
     | none => true) &&
    (match kvs.find? (fun kv => kv.1 == "sql") with
     | some kv => !truthy kv.2
     | none => true) &&
    (match kvs.find? (fun kv => kv.1 == "suggestions") with
     | some kv => !truthy kv.2
     | none => true)
  | _ => false

/-- Whether an assistant turn's stored value carries `s` among its
suggestions (the condition under which `display_response` renders a
suggestion button labelled `s`, lines 204-209). -/
def carriesSuggestion (v : PyVal) (s : String) : Bool :=
  match getItem v "suggestions" with
  | .ok w => truthy w && (match w with | .list xs => xs.any (pyStrEq s) | _ => false)
  | .error _ => false

/-- Content of a `PyVal` as a dict, decidably. -/
def PyVal.isDict : PyVal → Bool
  | .dict _ => true
  | _ => false

/-- Content of a `PyVal` as a str, decidably. -/
def PyVal.isStr : PyVal → Bool
  | .str _ => true
  | _ => false

/-- Current input of an accepted round (source line 235): the typed
chat input when truthy, the pending slot otherwise. -/
def currentInput (e : Event) (st : LoopState) : String :=
  if e.typed != "" then e.typed else (applyClick e.click st).userInput

/-- The assistant turn one accepted round appends, as a function of the
call outcome (source lines 254-277). -/
def assistantTurn (o : CallOutcome) : Turn :=
  match o with
  | .raiseDuring m => ⟨"assistant", .str ("Error: " ++ (errHead ++ m ++ errTail))⟩
  | .noRows => ⟨"assistant", .str ("Error: " ++ "No response received from Cortex Analyst")⟩
  | .decoded v =>
    match displayExc v with
    | some ex => ⟨"assistant", .str ("Unexpected error: " ++ ex)⟩
    | none => ⟨"assistant", v⟩

lemma applyClick_messages (c : Option String) (st : LoopState) :
    (applyClick c st).messages = st.messages := by
  cases c <;> rfl

lemma assistantTurn_role (o : CallOutcome) : (assistantTurn o).role = "assistant" := by
  cases o with
  | raiseDuring m => rfl
  | noRows => rfl
  | decoded v => cases hd : displayExc v <;> simp [assistantTurn, hd]

lemma handleInput_accepted (cfg typed : String) (o : CallOutcome) (st : LoopState)
    (h : (typed != "" || st.userInput != "") = true) :
    handleInput cfg typed o st =
      ⟨st.messages ++ [⟨"user", .str (if typed != "" then typed else st.userInput)⟩,
        assistantTurn o], ""⟩ := by
  unfold handleInput assistantTurn
  cases o with
  | raiseDuring m => simp [h, getAnalystResponse]
  | noRows => simp [h, getAnalystResponse]
  | decoded v =>
    simp only [h, if_true, getAnalystResponse]
    cases hd : displayExc v <;> simp [hd]

lemma processEvent_accepted (cfg : String) (e : Event) (st : LoopState)
    (h : acceptedEv e st = true) :
    processEvent cfg e st =
      ⟨st.messages ++ [⟨"user", .str (currentInput e st)⟩, assistantTurn e.outcome], ""⟩ := by
  unfold processEvent currentInput
  rw [handleInput_accepted _ _ _ _ h, applyClick_messages]

lemma processEvent_not_accepted (cfg : String) (e : Event) (st : LoopState)
    (h : acceptedEv e st = false) :
    processEvent cfg e st = applyClick e.click st := by
  unfold processEvent handleInput
  unfold acceptedEv at h
  simp [h]

lemma processEvent_length (cfg : String) (e : Event) (st : LoopState) :
    (processEvent cfg e st).messages.length
      = st.messages.length + (if acceptedEv e st then 2 else 0) := by
  by_cases h : acceptedEv e st = true
  · rw [processEvent_accepted cfg e st h]
    simp [h]
  · have h' : acceptedEv e st = false := by simpa using h
    rw [processEvent_not_accepted cfg e st h', applyClick_messages]
    simp [h']

lemma countAccepted_cons (cfg : String) (e : Event) (rest : List Event) (st : LoopState) :
    countAccepted cfg (e :: rest) st
      = (if acceptedEv e st then 1 else 0) + countAccepted cfg rest (processEvent cfg e st) :=
  rfl

lemma runLoop_length (cfg : String) (evs : List Event) (st : LoopState) :
    (runLoop cfg evs st).messages.length
      = st.messages.length + 2 * countAccepted cfg evs st := by
  induction evs generalizing st with
  | nil => simp [runLoop, countAccepted]
  | cons e rest ih =>
    show (runLoop cfg rest (processEvent cfg e st)).messages.length = _
    rw [ih, processEvent_length, countAccepted_cons]
    by_cases h : acceptedEv e st = true
    · simp [h]
      omega
    · simp [h]

/-- C2 counterexample: with an empty semantic-model path,
`get_analyst_response` performs its one remote call as usual and, when
the service answers, succeeds — no `ConfigurationError` is raised
client-side and the network-call count is 1, not 0. -/
theorem empty_config_still_calls_remote_cex :
    (getAnalystResponse "[]" "" (CallOutcome.decoded (PyVal.dict []))).networkCalls = 1
    ∧ (getAnalystResponse "[]" "" (CallOutcome.decoded (PyVal.dict []))).error = none :=
  ⟨rfl, rfl⟩

/-- C2 (amended): the configuration string is not validated client-side.
With an empty path the SQL is still built (the empty string interpolated
into the template) and the remote call is still made: exactly one
network call in every outcome. -/
theorem empty_config_no_client_side_check :
    ∀ mj : String, ∀ o : CallOutcome,
      (getAnalystResponse mj "" o).networkCalls = 1
      ∧ (getAnalystResponse mj "" o).sqlText = buildSqlQuery mj "" := by
  intro mj o
  cases o <;> exact ⟨rfl, rfl⟩

/-- C3 counterexample: a remote call that takes 31000 ms — past the
declared `API_TIMEOUT` of 30000 ms — and returns a decoded row is
treated as a plain success; no `Timeout`-kind error is produced. -/
theorem timeout_not_enforced_cex :
    API_TIMEOUT < 31000
    ∧ (getAnalystResponseTimed "[]" "model.yaml" 31000
        (CallOutcome.decoded (PyVal.dict [("message", PyVal.str "hi")]))).error = none :=
  ⟨by decide, rfl⟩

/-- C3 (amended): `API_TIMEOUT = 30000` is declared but never applied:
the result of `get_analyst_response` is independent of the call's
elapsed time, exactly one remote invocation happens per call (no
retry), and a raised exception surfaces as the generic error template —
not as a structured `Timeout` kind. -/
theorem timeout_constant_unused_single_call :
    (∀ mj p : String, ∀ e1 e2 : Nat, ∀ o : CallOutcome,
        getAnalystResponseTimed mj p e1 o = getAnalystResponseTimed mj p e2 o)
  ∧ (∀ mj p : String, ∀ e : Nat, ∀ o : CallOutcome,
        (getAnalystResponseTimed mj p e o).networkCalls = 1)
  ∧ (∀ mj p : String, ∀ e : Nat, ∀ m : String,
        (getAnalystResponseTimed mj p e (CallOutcome.raiseDuring m)).error
          = some (errHead ++ m ++ errTail))
  ∧ API_TIMEOUT = 30000 := by
  refine ⟨fun _ _ _ _ _ => rfl, fun mj p e o => ?_, fun _ _ _ _ => rfl, rfl⟩
  cases o <;> rfl

/-- C4 counterexample: a reply that decodes to the empty JSON object —
`message`, `sql` and `suggestions` all absent — is returned as a
success (`error = None`, response the empty dict), not as an
`EmptyReply` failure. -/
theorem empty_reply_returned_as_success_cex :
    allFieldsEmpty (PyVal.dict []) = true
    ∧ (getAnalystResponse "[\"x\"]" "path" (CallOutcome.decoded (PyVal.dict []))).error = none
    ∧ (getAnalystResponse "[\"x\"]" "path" (CallOutcome.decoded (PyVal.dict []))).response
        = PyVal.dict [] :=
  ⟨rfl, rfl, rfl⟩

/-- C4 (amended): a successfully decoded reply is passed through as a
success whatever its fields — in particular when all three optional
fields are absent or empty — and the only "empty" condition the code
detects is an empty SQL row list, reported as the fixed no-response
message. -/
theorem empty_reply_not_soft_failure :
    ∀ mj p : String, ∀ v : PyVal, allFieldsEmpty v = true →
      (getAnalystResponse mj p (CallOutcome.decoded v)).error = none
      ∧ (getAnalystResponse mj p (CallOutcome.decoded v)).response = v
      ∧ (getAnalystResponse mj p CallOutcome.noRows).error
          = some "No response received from Cortex Analyst" := by
  intro mj p v _h
  exact ⟨rfl, rfl, rfl⟩

/-- Witness for the amended C4 theorem at the empty JSON object. -/
theorem empty_reply_not_soft_failure_witness :
    allFieldsEmpty (PyVal.dict []) = true
    ∧ ((getAnalystResponse "[]" "m" (CallOutcome.decoded (PyVal.dict []))).error = none
      ∧ (getAnalystResponse "[]" "m" (CallOutcome.decoded (PyVal.dict []))).response
          = PyVal.dict []
      ∧ (getAnalystResponse "[]" "m" CallOutcome.noRows).error
          = some "No response received from Cortex Analyst") :=
  ⟨rfl, empty_reply_not_soft_failure "[]" "m" (PyVal.dict []) rfl⟩

/-- C6: the clear operation (the clear-history button's assignment)
yields an empty transcript from every prior state. -/
theorem clear_always_empties_transcript :
    ∀ st : LoopState, (clearHistoryStep true st).messages = [] := by
  intro st
  cases h : st.messages with
  | nil => simp [clearHistoryStep, h]
  | cons a l => simp [clearHistoryStep, h]

/-- C8: `get_analyst_response` is total (its `try` spans the whole
body, so no exception propagates) and returns an exclusive pair: a
decoded outcome comes back as `(decoded value, None)`, every failure
(raised exception or empty row list) comes back as the empty dict with
a non-`None` error message. -/
theorem get_analyst_response_total_exclusive :
    ∀ mj p : String, ∀ o : CallOutcome,
      (∃ v, o = CallOutcome.decoded v
        ∧ (getAnalystResponse mj p o).response = v
        ∧ (getAnalystResponse mj p o).error = none)
    ∨ ((getAnalystResponse mj p o).response = PyVal.dict []
        ∧ ∃ e, (getAnalystResponse mj p o).error = some e) := by
  intro mj p o
  cases o with
  | raiseDuring m => exact Or.inr ⟨rfl, _, rfl⟩
  | noRows => exact Or.inr ⟨rfl, _, rfl⟩
  | decoded v => exact Or.inl ⟨v, rfl, rfl, rfl⟩

/-- C1: over every sequence of reruns the transcript grows by exactly
two turns per accepted (non-empty) input — so from an empty transcript,
N accepted inputs leave length 2N — and each accepted round appends
exactly one user turn followed by one assistant turn, the assistant
turn present (as error text) even when the remote call raised or the
row list was empty. -/
theorem transcript_length_two_per_accepted_round :
    (∀ cfg : String, ∀ evs : List Event, ∀ st : LoopState,
      (runLoop cfg evs st).messages.length
        = st.messages.length + 2 * countAccepted cfg evs st)
  ∧ (∀ cfg : String, ∀ e : Event, ∀ st : LoopState,
      acceptedEv e st = true →
      ∃ u a : Turn, (processEvent cfg e st).messages = st.messages ++ [u, a]
        ∧ u.role = "user" ∧ a.role = "assistant"
        ∧ (∀ m, e.outcome = CallOutcome.raiseDuring m → ∃ s, a.content = PyVal.str s)
        ∧ (e.outcome = CallOutcome.noRows → ∃ s, a.content = PyVal.str s)) := by
  constructor
  · exact runLoop_length
  · intro cfg e st h
    refine ⟨⟨"user", .str (currentInput e st)⟩, assistantTurn e.outcome, ?_, rfl,
      assistantTurn_role e.outcome, ?_, ?_⟩
    · rw [processEvent_accepted cfg e st h]
    · intro m hm
      rw [hm]
      exact ⟨_, rfl⟩
    · intro hm
      rw [hm]
      exact ⟨_, rfl⟩

/-- Witness for C1 at a concrete accepted round (typed input `"q"`,
empty row list from the remote call). -/
theorem transcript_length_two_per_accepted_round_witness :
    ∃ u a : Turn,
      (processEvent "cfg" ⟨none, "q", CallOutcome.noRows⟩ ⟨[], ""⟩).messages
        = ([] : List Turn) ++ [u, a]
      ∧ u.role = "user" ∧ a.role = "assistant"
      ∧ (∀ m, CallOutcome.noRows = CallOutcome.raiseDuring m → ∃ s, a.content = PyVal.str s)
      ∧ (CallOutcome.noRows = CallOutcome.noRows → ∃ s, a.content = PyVal.str s) :=
  transcript_length_two_per_accepted_round.2 "cfg" ⟨none, "q", CallOutcome.noRows⟩ ⟨[], ""⟩
    (by rfl)

/-- C5 counterexample: an empty suggestion string carried by a prior
assistant turn, when selected, is rejected by the input guard (Python
truthiness of `""`): the transcript is unchanged and no user turn is
produced — the claim fails at the suggestion `""`. -/
theorem empty_suggestion_produces_no_turn_cex :
    carriesSuggestion (PyVal.dict [("suggestions", PyVal.list [PyVal.str ""])]) "" = true
    ∧ (processEvent "cfg" ⟨some "", "", CallOutcome.noRows⟩
        ⟨[⟨"user", PyVal.str "q"⟩,
          ⟨"assistant", PyVal.dict [("suggestions", PyVal.list [PyVal.str ""])]⟩], ""⟩).messages
      = [⟨"user", PyVal.str "q"⟩,
         ⟨"assistant", PyVal.dict [("suggestions", PyVal.list [PyVal.str ""])]⟩]
    ∧ ¬ ∃ a : Turn, (processEvent "cfg" ⟨some "", "", CallOutcome.noRows⟩
        ⟨[⟨"user", PyVal.str "q"⟩,
          ⟨"assistant", PyVal.dict [("suggestions", PyVal.list [PyVal.str ""])]⟩], ""⟩).messages
      = [⟨"user", PyVal.str "q"⟩,
         ⟨"assistant", PyVal.dict [("suggestions", PyVal.list [PyVal.str ""])]⟩]
        ++ [⟨"user", PyVal.str ""⟩, a] := by
  refine ⟨rfl, rfl, ?_⟩
  rintro ⟨a, ha⟩
  change [⟨"user", PyVal.str "q"⟩,
      ⟨"assistant", PyVal.dict [("suggestions", PyVal.list [PyVal.str ""])]⟩]
    = [⟨"user", PyVal.str "q"⟩,
       ⟨"assistant", PyVal.dict [("suggestions", PyVal.list [PyVal.str ""])]⟩]
      ++ [⟨"user", PyVal.str ""⟩, a] at ha
  have hlen := congrArg List.length ha
  simp at hlen

/-- C5 (amended): selecting a non-empty suggestion carried by a prior
assistant turn — the click writes it into the pending slot and the
click's rerun has no typed chat input — produces a new user turn whose
content is exactly, character for character, the suggestion text. -/
theorem suggestion_click_becomes_user_turn :
    ∀ cfg s : String, ∀ st : LoopState, ∀ o : CallOutcome,
      s ≠ "" →
      (∃ t ∈ st.messages, t.role = "assistant" ∧ carriesSuggestion t.content s = true) →
      ∃ a : Turn, (processEvent cfg ⟨some s, "", o⟩ st).messages
          = st.messages ++ [⟨"user", PyVal.str s⟩, a] := by
  intro cfg s st o hs _hcarry
  have hacc : acceptedEv ⟨some s, "", o⟩ st = true := by
    simp [acceptedEv, applyClick, hs]
  refine ⟨assistantTurn o, ?_⟩
  rw [processEvent_accepted _ _ _ hacc]
  simp [currentInput, applyClick]

/-- Witness for the amended C5 theorem: the suggestion
`"Show totals"` carried by a prior assistant turn becomes the next
user turn verbatim. -/
theorem suggestion_click_becomes_user_turn_witness :
    ∃ a : Turn,
      (processEvent "cfg" ⟨some "Show totals", "", CallOutcome.noRows⟩
        ⟨[⟨"user", PyVal.str "q"⟩,
          ⟨"assistant", PyVal.dict [("suggestions", PyVal.list [PyVal.str "Show totals"])]⟩],
         ""⟩).messages
      = [⟨"user", PyVal.str "q"⟩,
         ⟨"assistant", PyVal.dict [("suggestions", PyVal.list [PyVal.str "Show totals"])]⟩]
        ++ [⟨"user", PyVal.str "Show totals"⟩, a] :=
  suggestion_click_becomes_user_turn "cfg" "Show totals" _ CallOutcome.noRows
    (by decide)
    ⟨⟨"assistant", PyVal.dict [("suggestions", PyVal.list [PyVal.str "Show totals"])]⟩,
      by simp, rfl, rfl⟩

/-- C7: in every accepted round that fails, the diagnostic detail of
the underlying failure appears verbatim (as a contiguous substring) in
the assistant error turn: the `str(e)` of an exception raised around
the remote call, the `str(e)` of an exception raised while displaying
the response, and the fixed no-response message are all embedded in the
appended turn's text. -/
theorem error_detail_preserved_verbatim :
    ∀ cfg : String, ∀ e : Event, ∀ st : LoopState,
      acceptedEv e st = true →
      ((∀ m, e.outcome = CallOutcome.raiseDuring m →
        ∃ u s, (processEvent cfg e st).messages
            = st.messages ++ [u, ⟨"assistant", PyVal.str s⟩]
          ∧ List.IsInfix m.data s.data)
      ∧ (∀ v ex, e.outcome = CallOutcome.decoded v → displayExc v = some ex →
        ∃ u s, (processEvent cfg e st).messages
            = st.messages ++ [u, ⟨"assistant", PyVal.str s⟩]
          ∧ List.IsInfix ex.data s.data)
      ∧ (e.outcome = CallOutcome.noRows →
        ∃ u s, (processEvent cfg e st).messages
            = st.messages ++ [u, ⟨"assistant", PyVal.str s⟩]
          ∧ List.IsInfix ("No response received from Cortex Analyst").data s.data)) := by
  intro cfg e st h
  refine ⟨?_, ?_, ?_⟩
  · intro m hm
    refine ⟨⟨"user", .str (currentInput e st)⟩, "Error: " ++ (errHead ++ m ++ errTail), ?_, ?_⟩
    · rw [processEvent_accepted cfg e st h, hm]
      rfl
    · exact ⟨("Error: " ++ errHead).data, errTail.data, by simp [String.data_append]⟩
  · intro v ex hm hex
    refine ⟨⟨"user", .str (currentInput e st)⟩, "Unexpected error: " ++ ex, ?_, ?_⟩
    · rw [processEvent_accepted cfg e st h, hm]
      simp [assistantTurn, hex]
    · exact ⟨("Unexpected error: ").data, [], by simp [String.data_append]⟩
  · intro hm
    refine ⟨⟨"user", .str (currentInput e st)⟩,
      "Error: " ++ "No response received from Cortex Analyst", ?_, ?_⟩
    · rw [processEvent_accepted cfg e st h, hm]
      rfl
    · exact ⟨("Error: ").data, [], by simp [String.data_append]⟩

/-- Witness for C7 at a concrete failing round: the remote call raises
with `str(e) = "boom"` and `"boom"` is a substring of the appended
error turn. -/
theorem error_detail_preserved_verbatim_witness :
    ∃ u s, (processEvent "cfg" ⟨none, "q", CallOutcome.raiseDuring "boom"⟩
        ⟨[], ""⟩).messages
      = ([] : List Turn) ++ [u, ⟨"assistant", PyVal.str s⟩]
      ∧ List.IsInfix ("boom").data s.data :=
  (error_detail_preserved_verbatim "cfg" ⟨none, "q", CallOutcome.raiseDuring "boom"⟩
    ⟨[], ""⟩ (by rfl)).1 "boom" rfl

/-- C9: when a rerun has both a truthy typed chat input and a truthy
pending input queued, the typed input becomes the user turn and the
pending input is cleared without ever becoming a turn; and after every
accepted round the pending slot is empty. -/
theorem typed_input_shadows_pending :
    (∀ cfg typed pend : String, ∀ o : CallOutcome, ∀ msgs : List Turn,
      typed ≠ "" → pend ≠ "" →
      ∃ a : Turn, processEvent cfg ⟨none, typed, o⟩ ⟨msgs, pend⟩
          = ⟨msgs ++ [⟨"user", PyVal.str typed⟩, a], ""⟩)
  ∧ (∀ cfg : String, ∀ e : Event, ∀ st : LoopState,
      acceptedEv e st = true → (processEvent cfg e st).userInput = "") := by
  constructor
  · intro cfg typed pend o msgs htyped _hpend
    have hacc : acceptedEv ⟨none, typed, o⟩ ⟨msgs, pend⟩ = true := by
      simp [acceptedEv, applyClick, htyped]
    refine ⟨assistantTurn o, ?_⟩
    rw [processEvent_accepted _ _ _ hacc]
    simp [currentInput, applyClick, htyped]
  · intro cfg e st h
    rw [processEvent_accepted cfg e st h]

/-- Witness for C9: typed `"t"` wins over pending `"p"`, and a
suggestion-click round leaves the pending slot empty. -/
theorem typed_input_shadows_pending_witness :
    (∃ a : Turn, processEvent "cfg" ⟨none, "t", CallOutcome.noRows⟩ ⟨[], "p"⟩
        = ⟨[] ++ [⟨"user", PyVal.str "t"⟩, a], ""⟩)
    ∧ (processEvent "c2" ⟨some "s", "", CallOutcome.noRows⟩ ⟨[], ""⟩).userInput = "" :=
  ⟨typed_input_shadows_pending.1 "cfg" "t" "p" CallOutcome.noRows [] (by decide) (by decide),
   typed_input_shadows_pending.2 "c2" ⟨some "s", "", CallOutcome.noRows⟩ ⟨[], ""⟩ (by rfl)⟩

/-- C10 counterexample: a round whose payload decodes to the bare JSON
string `"OK"` succeeds (`error = None`) yet stores a plain string as
the assistant turn's content — so the content's type alone does not
distinguish a successful assistant turn from a failed one, refuting the
claimed invariant as stated. -/
theorem content_type_not_distinguishing_cex :
    (getAnalystResponse "[]" "mdl" (CallOutcome.decoded (PyVal.str "OK"))).error = none
    ∧ (processEvent "mdl" ⟨none, "q", CallOutcome.decoded (PyVal.str "OK")⟩ ⟨[], ""⟩).messages
        = [⟨"user", PyVal.str "q"⟩, ⟨"assistant", PyVal.str "OK"⟩]
    ∧ (PyVal.str "OK").isDict = false :=
  ⟨rfl, rfl, rfl⟩

/-- C10 (amended): provided every successfully decoded payload is a
JSON object (a dict) — which is what the remote service's interface
promises — each accepted round appends a user turn whose content is a
plain string and an assistant turn whose content is a dict exactly when
the round reached the success path (decoded payload, display raised
nothing) and a plain error string otherwise; and over every run from
the empty state, every user turn's content is a plain string. -/
theorem content_type_invariant :
    (∀ cfg : String, ∀ e : Event, ∀ st : LoopState,
      (∀ v, e.outcome = CallOutcome.decoded v → v.isDict = true) →
      acceptedEv e st = true →
      ∃ u a : Turn, (processEvent cfg e st).messages = st.messages ++ [u, a]
        ∧ u.role = "user" ∧ u.content.isStr = true
        ∧ a.role = "assistant"
        ∧ (a.content.isDict = true ↔ roundSuccess e.outcome = true)
        ∧ (roundSuccess e.outcome = false → a.content.isStr = true))
  ∧ (∀ cfg : String, ∀ evs : List Event,
      ∀ t ∈ (runLoop cfg evs ⟨[], ""⟩).messages,
        t.role = "user" → t.content.isStr = true) := by
  constructor
  · intro cfg e st hdict h
    refine ⟨⟨"user", .str (currentInput e st)⟩, assistantTurn e.outcome, ?_, rfl, rfl,
      assistantTurn_role e.outcome, ?_, ?_⟩
    · rw [processEvent_accepted cfg e st h]
    · cases ho : e.outcome with
      | raiseDuring m => simp [assistantTurn, roundSuccess, PyVal.isDict]
      | noRows => simp [assistantTurn, roundSuccess, PyVal.isDict]
      | decoded v =>
        cases hd : displayExc v with
        | some ex => simp [assistantTurn, roundSuccess, hd, PyVal.isDict]
        | none => simp [assistantTurn, roundSuccess, hd, hdict v ho]
    · cases ho : e.outcome with
      | raiseDuring m => intro _; rfl
      | noRows => intro _; rfl
      | decoded v =>
        intro hfail
        rw [roundSuccess] at hfail
        cases hd : displayExc v with
        | some ex => simp [assistantTurn, hd, PyVal.isStr]
        | none => rw [hd] at hfail; simp at hfail
  · intro cfg evs
    have key : ∀ evs : List Event, ∀ st : LoopState,
        (∀ t ∈ st.messages, t.role = "user" → t.content.isStr = true) →
        ∀ t ∈ (runLoop cfg evs st).messages, t.role = "user" → t.content.isStr = true := by
      intro evs
      induction evs with
      | nil => intro st hst; exact hst
      | cons e rest ih =>
        intro st hst
        show ∀ t ∈ (runLoop cfg rest (processEvent cfg e st)).messages,
          t.role = "user" → t.content.isStr = true
        apply ih
        by_cases h : acceptedEv e st = true
        · rw [processEvent_accepted cfg e st h]
          intro t ht hrole
          rcases List.mem_append.1 ht with h1 | h2
          · exact hst t h1 hrole
          · rcases List.mem_cons.1 h2 with h2 | h2
            · rw [h2]; rfl
            · rcases List.mem_cons.1 h2 with h2 | h2
              · rw [h2] at hrole
                rw [assistantTurn_role] at hrole
                simp at hrole
              · simp at h2
        · have h' : acceptedEv e st = false := by simpa using h
          rw [processEvent_not_accepted cfg e st h', applyClick_messages]
          exact hst
    exact key evs ⟨[], ""⟩ (by intro t ht; simp at ht)

/-- Witness for the amended C10 theorem at a concrete successful round
with a dict payload, and at the empty run. -/
theorem content_type_invariant_witness :
    (∃ u a : Turn,
      (processEvent "cfg" ⟨none, "q", CallOutcome.decoded (PyVal.dict [("message", PyVal.str "hello")])⟩
        ⟨[], ""⟩).messages = ([] : List Turn) ++ [u, a]
      ∧ u.role = "user" ∧ u.content.isStr = true
      ∧ a.role = "assistant"
      ∧ (a.content.isDict = true
          ↔ roundSuccess (CallOutcome.decoded (PyVal.dict [("message", PyVal.str "hello")])) = true)
      ∧ (roundSuccess (CallOutcome.decoded (PyVal.dict [("message", PyVal.str "hello")])) = false
          → a.content.isStr = true))
    ∧ (∀ t ∈ (runLoop "cfg" [] ⟨[], ""⟩).messages, t.role = "user" → t.content.isStr = true) :=
  ⟨content_type_invariant.1 "cfg"
      ⟨none, "q", CallOutcome.decoded (PyVal.dict [("message", PyVal.str "hello")])⟩ ⟨[], ""⟩
      (fun v hv => by cases hv; rfl) (by rfl),
   content_type_invariant.2 "cfg" []⟩

end CortexDemo
